import Mathlib

/-!
Verification of the inverse solar-position core (`SolarMath`) of the
sunrise/sunset prediction system.

The embedded functions mirror `SolarMath.get_solar_declination_and_eot` and
`SolarMath.solve_location` from `src/sunrise_sunset.py`. Python floats are
modelled by real numbers; integer second counts by `ℤ`. The Python function
`solve_location` returns a pair `(result, message)` with three shapes:
`(None, error)`, `((0.0, lon), warning)` and `((lat, lon), None)`; these are
embedded as the three constructors of `SolveOutcome`.
-/

namespace SunriseSunset

/-- A calendar date. The Python code reads only `timetuple().tm_yday`
(the ordinal day of the year); the year is carried to express that it is
never consulted. -/
structure CalendarDate where
  year : ℕ
  dayOfYear : ℕ

/-- A wall-clock time of day, as in Python's `datetime.time`. -/
structure ClockTime where
  hour : ℕ
  minute : ℕ
  second : ℕ

/-- A valid clock time: hour in [0,23], minute and second in [0,59]. -/
def ClockTime.Valid (t : ClockTime) : Prop :=
  t.hour ≤ 23 ∧ t.minute ≤ 59 ∧ t.second ≤ 59

instance (t : ClockTime) : Decidable t.Valid := by
  unfold ClockTime.Valid; infer_instance

/-- Seconds since midnight: `hour * 3600 + minute * 60 + second`
(lines 41-42 of the source). -/
def ClockTime.toSeconds (t : ClockTime) : ℤ :=
  (t.hour : ℤ) * 3600 + (t.minute : ℤ) * 60 + (t.second : ℤ)

/-- `math.radians`: degrees to radians. -/
noncomputable def radians (x : ℝ) : ℝ := x * (Real.pi / 180)

/-- `math.degrees`: radians to degrees. -/
noncomputable def degrees (x : ℝ) : ℝ := x * (180 / Real.pi)

/-- The pair returned by `get_solar_declination_and_eot`:
solar declination (radians) and equation of time (minutes). -/
structure SolarAngles where
  declination : ℝ
  equationOfTime : ℝ

/-- `SolarMath.get_solar_declination_and_eot` (lines 24-36 of the source):
`B = (360/365) * (day_of_year - 81)` in degrees, converted to radians;
`eot = 9.87*sin(2B) - 7.53*cos(B) - 1.5*sin(B)` minutes;
`delta = radians(23.45 * sin(B))`. -/
noncomputable def get_solar_declination_and_eot (date_obj : CalendarDate) : SolarAngles :=
  let B : ℝ := (360 / 365) * ((date_obj.dayOfYear : ℝ) - 81)
  let B_rad : ℝ := radians B
  let eot : ℝ := 9.87 * Real.sin (2 * B_rad) - 7.53 * Real.cos B_rad - 1.5 * Real.sin B_rad
  let delta_deg : ℝ := 23.45 * Real.sin B_rad
  let delta_rad : ℝ := radians delta_deg
  { declination := delta_rad, equationOfTime := eot }

/-- The three return shapes of `SolarMath.solve_location`:
`(None, error-message)`, `((0.0, longitude), warning)` and
`((latitude, longitude), None)`. -/
inductive SolveOutcome where
  | failure : SolveOutcome
  | withAdvisory (lat lon : ℝ) : SolveOutcome
  | ok (lat lon : ℝ) : SolveOutcome

/-- The longitude component of an outcome, when a location was produced. -/
def SolveOutcome.longitudeOf : SolveOutcome → Option ℝ
  | .failure => none
  | .withAdvisory _ lon => some lon
  | .ok _ lon => some lon

/-- `SolarMath.solve_location` (lines 39-74 of the source), embedded
statement by statement. Integer division by 2 in Python is float division
(`day_length_seconds / 2`), hence the cast to `ℝ` before dividing. -/
noncomputable def solve_location (target_date : CalendarDate)
    (sunrise_time sunset_time : ClockTime) (utc_offset : ℝ) : SolveOutcome :=
  let sr_seconds : ℤ := sunrise_time.toSeconds
  let ss_seconds : ℤ := sunset_time.toSeconds
  let day_length_seconds : ℤ := ss_seconds - sr_seconds
  if day_length_seconds ≤ 0 then
    SolveOutcome.failure
  else
    let local_solar_noon_seconds : ℝ := (sr_seconds : ℝ) + (day_length_seconds : ℝ) / 2
    let local_solar_noon_min : ℝ := local_solar_noon_seconds / 60
    let angles := get_solar_declination_and_eot target_date
    let utc_noon_min : ℝ := local_solar_noon_min - utc_offset * 60
    let long_offset_min : ℝ := 720 - utc_noon_min - angles.equationOfTime
    let longitude : ℝ := long_offset_min / 4
    let day_length_hours : ℝ := (day_length_seconds : ℝ) / 3600
    let omega_deg : ℝ := (day_length_hours / 2) * 15
    let omega_rad : ℝ := radians omega_deg
    let tan_delta : ℝ := Real.tan angles.declination
    if |tan_delta| < 0.001 then
      SolveOutcome.withAdvisory 0 longitude
    else
      let tan_phi : ℝ := -Real.cos omega_rad / tan_delta
      let phi_rad : ℝ := Real.arctan tan_phi
      SolveOutcome.ok (degrees phi_rad) longitude

/-- `computeSolarAngles` as the specification words it (section 4.1 of the
spec): `B_degrees = (360/365) * (dayOfYear - 81)`, converted to radians;
`equationOfTime_minutes = 9.87*sin(2B) - 7.53*cos(B) - 1.5*sin(B)`;
`declination_degrees = 23.45 * sin(B)`, converted to radians. -/
noncomputable def computeSolarAngles_spec (d : CalendarDate) : SolarAngles where
  declination := radians (23.45 * Real.sin (radians ((360 / 365) * ((d.dayOfYear : ℝ) - 81))))
  equationOfTime :=
    9.87 * Real.sin (2 * radians ((360 / 365) * ((d.dayOfYear : ℝ) - 81)))
      - 7.53 * Real.cos (radians ((360 / 365) * ((d.dayOfYear : ℝ) - 81)))
      - 1.5 * Real.sin (radians ((360 / 365) * ((d.dayOfYear : ℝ) - 81)))

/-- On a positive day length, `solve_location` reduces to the
near-equinox check on `tan(declination)`, with the longitude and latitude
expressions of lines 49-74 of the source. Shared between the claims about
the non-failing branches. -/
theorem solve_location_of_pos (d : CalendarDate) (sr ss : ClockTime) (off : ℝ)
    (h : 0 < ss.toSeconds - sr.toSeconds) :
    solve_location d sr ss off =
      if |Real.tan (get_solar_declination_and_eot d).declination| < 0.001 then
        SolveOutcome.withAdvisory 0
          ((720 - (((sr.toSeconds : ℝ) + ((ss.toSeconds - sr.toSeconds : ℤ) : ℝ) / 2) / 60
              - off * 60) - (get_solar_declination_and_eot d).equationOfTime) / 4)
      else
        SolveOutcome.ok
          (degrees (Real.arctan
            (-Real.cos (radians (((((ss.toSeconds - sr.toSeconds : ℤ) : ℝ) / 3600) / 2) * 15)) /
              Real.tan (get_solar_declination_and_eot d).declination)))
          ((720 - (((sr.toSeconds : ℝ) + ((ss.toSeconds - sr.toSeconds : ℤ) : ℝ) / 2) / 60
              - off * 60) - (get_solar_declination_and_eot d).equationOfTime) / 4) := by
  rw [solve_location]
  rw [if_neg (not_le.mpr h)]

/-- The longitude produced on a positive day length, in both branches:
`(720 - (localSolarNoonMinutes - utcOffset*60) - eotMinutes) / 4`. -/
theorem longitudeOf_solve_location (d : CalendarDate) (sr ss : ClockTime) (off : ℝ)
    (h : 0 < ss.toSeconds - sr.toSeconds) :
    (solve_location d sr ss off).longitudeOf =
      some ((720 - (((sr.toSeconds : ℝ) + ((ss.toSeconds - sr.toSeconds : ℤ) : ℝ) / 2) / 60
          - off * 60) - (get_solar_declination_and_eot d).equationOfTime) / 4) := by
  rw [solve_location_of_pos d sr ss off h]
  by_cases hc : |Real.tan (get_solar_declination_and_eot d).declination| < 0.001
  · rw [if_pos hc]; rfl
  · rw [if_neg hc]; rfl

/-- C3: For every CalendarDate, `computeSolarAngles` returns exactly the
SolarAngles given by `B = radians((360/365)*(dayOfYear-81))`,
`equationOfTime = 9.87*sin(2B) - 7.53*cos(B) - 1.5*sin(B)` minutes and
`declination = radians(23.45*sin(B))`; being a Lean function of the date it
is total and side-effect-free. -/
theorem computeSolarAngles_matches_spec (d : CalendarDate) :
    get_solar_declination_and_eot d = computeSolarAngles_spec d := rfl

/-- C4: `solve_location` fails (returning no location) if and only if the
day length `sunsetSeconds - sunriseSeconds` is nonpositive; this is the only
failure constructor the solver can return. -/
theorem failure_iff_nonpositive_day_length (d : CalendarDate) (sr ss : ClockTime) (off : ℝ) :
    solve_location d sr ss off = SolveOutcome.failure ↔ ss.toSeconds - sr.toSeconds ≤ 0 := by
  rw [solve_location]
  by_cases h : ss.toSeconds - sr.toSeconds ≤ 0
  · simp [h]
  · rw [if_neg h]
    by_cases hc : |Real.tan (get_solar_declination_and_eot d).declination| < 0.001
    · simp [hc, h]
    · simp [hc, h]

/-- C9: for every date, the declination lies in
`[-23.45°, +23.45°]` expressed in radians, and the equation of time lies in
`[-20, 20]` minutes. -/
theorem solar_angles_bounded (d : CalendarDate) :
    -(23.45 * (Real.pi / 180)) ≤ (get_solar_declination_and_eot d).declination ∧
    (get_solar_declination_and_eot d).declination ≤ 23.45 * (Real.pi / 180) ∧
    -20 ≤ (get_solar_declination_and_eot d).equationOfTime ∧
    (get_solar_declination_and_eot d).equationOfTime ≤ 20 := by
  have hpi : (0 : ℝ) < Real.pi / 180 := by positivity
  simp only [get_solar_declination_and_eot, radians]
  set B := (360 / 365) * ((d.dayOfYear : ℝ) - 81) * (Real.pi / 180) with hB
  have hs1 := Real.sin_le_one B
  have hs2 := Real.neg_one_le_sin B
  have hs3 := Real.sin_le_one (2 * B)
  have hs4 := Real.neg_one_le_sin (2 * B)
  have hc1 := Real.cos_le_one B
  have hc2 := Real.neg_one_le_cos B
  refine ⟨?_, ?_, ?_, ?_⟩
  · nlinarith
  · nlinarith
  · nlinarith
  · nlinarith

/-- C10: the solver depends on the date only through its day-of-year: two
dates with equal `dayOfYear` give identical solar angles and identical
solve outcomes for the same clock times and UTC offset. -/
theorem depends_only_on_day_of_year (d₁ d₂ : CalendarDate)
    (h : d₁.dayOfYear = d₂.dayOfYear) (sr ss : ClockTime) (off : ℝ) :
    get_solar_declination_and_eot d₁ = get_solar_declination_and_eot d₂ ∧
    solve_location d₁ sr ss off = solve_location d₂ sr ss off := by
  obtain ⟨y₁, n₁⟩ := d₁
  obtain ⟨y₂, n₂⟩ := d₂
  simp only at h
  subst h
  exact ⟨rfl, rfl⟩

/-- Witness for C10 at two concrete dates in different years sharing
day-of-year 100. -/
theorem depends_only_on_day_of_year_witness :
    (CalendarDate.mk 2023 100).dayOfYear = (CalendarDate.mk 2024 100).dayOfYear ∧
    get_solar_declination_and_eot ⟨2023, 100⟩ = get_solar_declination_and_eot ⟨2024, 100⟩ ∧
    solve_location ⟨2023, 100⟩ ⟨6, 0, 0⟩ ⟨18, 0, 0⟩ 0 =
      solve_location ⟨2024, 100⟩ ⟨6, 0, 0⟩ ⟨18, 0, 0⟩ 0 := by
  refine ⟨rfl, ?_, ?_⟩
  · exact (depends_only_on_day_of_year ⟨2023, 100⟩ ⟨2024, 100⟩ rfl ⟨6, 0, 0⟩ ⟨18, 0, 0⟩ 0).1
  · exact (depends_only_on_day_of_year ⟨2023, 100⟩ ⟨2024, 100⟩ rfl ⟨6, 0, 0⟩ ⟨18, 0, 0⟩ 0).2

/-- On day-of-year 81 we have `B = 0`, so the declination is exactly `0`
and the equation of time is exactly `-7.53` minutes, in any year. -/
theorem angles_day81 (y : ℕ) :
    get_solar_declination_and_eot ⟨y, 81⟩ = ⟨0, -7.53⟩ := by
  simp only [get_solar_declination_and_eot, radians]
  norm_num [SolarAngles.mk.injEq]

/-- On day-of-year 81 the solver always takes the near-equinox advisory
branch (since `tan 0 = 0`), with the usual longitude where the equation of
time contributes `+7.53`. -/
theorem solve_location_day81 (y : ℕ) (sr ss : ClockTime) (off : ℝ)
    (h : 0 < ss.toSeconds - sr.toSeconds) :
    solve_location ⟨y, 81⟩ sr ss off =
      SolveOutcome.withAdvisory 0
        ((720 - (((sr.toSeconds : ℝ) + ((ss.toSeconds - sr.toSeconds : ℤ) : ℝ) / 2) / 60
            - off * 60) + 7.53) / 4) := by
  rw [solve_location_of_pos ⟨y, 81⟩ sr ss off h, angles_day81 y]
  norm_num [Real.tan_zero, SolveOutcome.withAdvisory.injEq]

/-- C1: for every input with positive day length, the longitude component
of the outcome (in the advisory branch as well as in the normal branch)
equals `(720 - ((sunriseSeconds + dayLengthSeconds/2)/60 - utcOffset*60)
- eotMinutes) / 4`. -/
theorem longitude_formula_both_branches (d : CalendarDate) (sr ss : ClockTime) (off : ℝ)
    (h : 0 < ss.toSeconds - sr.toSeconds) :
    (solve_location d sr ss off).longitudeOf =
      some ((720 - (((sr.toSeconds : ℝ) + ((ss.toSeconds - sr.toSeconds : ℤ) : ℝ) / 2) / 60
          - off * 60) - (get_solar_declination_and_eot d).equationOfTime) / 4) :=
  longitudeOf_solve_location d sr ss off h

/-- Witness for C1 at date day-of-year 81, sunrise 06:30:00, sunset
18:30:00, UTC offset 8. -/
theorem longitude_formula_both_branches_witness :
    0 < ClockTime.toSeconds ⟨18, 30, 0⟩ - ClockTime.toSeconds ⟨6, 30, 0⟩ ∧
    (solve_location ⟨2024, 81⟩ ⟨6, 30, 0⟩ ⟨18, 30, 0⟩ 8).longitudeOf =
      some ((720 - (((ClockTime.toSeconds ⟨6, 30, 0⟩ : ℝ)
          + ((ClockTime.toSeconds ⟨18, 30, 0⟩ - ClockTime.toSeconds ⟨6, 30, 0⟩ : ℤ) : ℝ) / 2) / 60
          - 8 * 60) - (get_solar_declination_and_eot ⟨2024, 81⟩).equationOfTime) / 4) :=
  ⟨by decide, longitude_formula_both_branches ⟨2024, 81⟩ ⟨6, 30, 0⟩ ⟨18, 30, 0⟩ 8 (by decide)⟩

/-- C5: whenever the day length is positive and `|tan(declination)| < 0.001`,
the solver returns the advisory outcome with latitude exactly `0` and the
normally computed longitude — a location is produced, never a failure. -/
theorem near_equinox_advisory (d : CalendarDate) (sr ss : ClockTime) (off : ℝ)
    (h : 0 < ss.toSeconds - sr.toSeconds)
    (h2 : |Real.tan (get_solar_declination_and_eot d).declination| < 0.001) :
    solve_location d sr ss off =
      SolveOutcome.withAdvisory 0
        ((720 - (((sr.toSeconds : ℝ) + ((ss.toSeconds - sr.toSeconds : ℤ) : ℝ) / 2) / 60
            - off * 60) - (get_solar_declination_and_eot d).equationOfTime) / 4) := by
  rw [solve_location_of_pos d sr ss off h, if_pos h2]

/-- Witness for C5 on day-of-year 81 (declination exactly 0). -/
theorem near_equinox_advisory_witness :
    0 < ClockTime.toSeconds ⟨18, 30, 0⟩ - ClockTime.toSeconds ⟨6, 30, 0⟩ ∧
    |Real.tan (get_solar_declination_and_eot ⟨2024, 81⟩).declination| < 0.001 ∧
    solve_location ⟨2024, 81⟩ ⟨6, 30, 0⟩ ⟨18, 30, 0⟩ 8 =
      SolveOutcome.withAdvisory 0
        ((720 - (((ClockTime.toSeconds ⟨6, 30, 0⟩ : ℝ)
            + ((ClockTime.toSeconds ⟨18, 30, 0⟩ - ClockTime.toSeconds ⟨6, 30, 0⟩ : ℤ) : ℝ) / 2) / 60
            - 8 * 60) - (get_solar_declination_and_eot ⟨2024, 81⟩).equationOfTime) / 4) := by
  have h2 : |Real.tan (get_solar_declination_and_eot ⟨2024, 81⟩).declination| < 0.001 := by
    rw [angles_day81 2024]
    norm_num [Real.tan_zero]
  exact ⟨by decide, h2, near_equinox_advisory ⟨2024, 81⟩ ⟨6, 30, 0⟩ ⟨18, 30, 0⟩ 8 (by decide) h2⟩

/-- C7: on day-of-year 81 with sunrise 06:30:00, sunset 18:30:00 and UTC
offset 8, the solver returns the advisory outcome with latitude 0 and
longitude exactly `114.3825` (within 10 degrees of 120), the day length
being 43200 seconds and the local solar noon 750 minutes. -/
theorem example_day81_utc8 (y : ℕ) :
    ClockTime.toSeconds ⟨18, 30, 0⟩ - ClockTime.toSeconds ⟨6, 30, 0⟩ = 43200 ∧
    ((ClockTime.toSeconds ⟨6, 30, 0⟩ : ℝ) + (43200 : ℝ) / 2) / 60 = 750 ∧
    solve_location ⟨y, 81⟩ ⟨6, 30, 0⟩ ⟨18, 30, 0⟩ 8 = SolveOutcome.withAdvisory 0 114.3825 ∧
    |(114.3825 : ℝ) - 120| < 10 := by
  refine ⟨by decide, by norm_num [ClockTime.toSeconds], ?_, by norm_num [abs_of_nonpos]⟩
  rw [solve_location_day81 y ⟨6, 30, 0⟩ ⟨18, 30, 0⟩ 8 (by decide)]
  norm_num [ClockTime.toSeconds, SolveOutcome.withAdvisory.injEq]

/-- Counterexample to C6 as stated: with valid clock times, positive day
length and a UTC offset inside `[-12, 14]`, the returned longitude can
leave `[-180, 180]`: sunrise 12:00:00, sunset 23:59:59 at offset `-12` on
day-of-year 81 yields longitude `-643477/2400 ≈ -268.12 < -180`. -/
theorem longitude_range_counterexample :
    ClockTime.Valid ⟨12, 0, 0⟩ ∧ ClockTime.Valid ⟨23, 59, 59⟩ ∧
    (-12 : ℝ) ≤ -12 ∧ (-12 : ℝ) ≤ 14 ∧
    0 < ClockTime.toSeconds ⟨23, 59, 59⟩ - ClockTime.toSeconds ⟨12, 0, 0⟩ ∧
    solve_location ⟨2024, 81⟩ ⟨12, 0, 0⟩ ⟨23, 59, 59⟩ (-12) =
      SolveOutcome.withAdvisory 0 (-(643477 / 2400 : ℝ)) ∧
    -(643477 / 2400 : ℝ) < -180 := by
  refine ⟨by decide, by decide, le_refl _, by norm_num, by decide, ?_, by norm_num⟩
  rw [solve_location_day81 2024 ⟨12, 0, 0⟩ ⟨23, 59, 59⟩ (-12) (by decide)]
  norm_num [ClockTime.toSeconds, SolveOutcome.withAdvisory.injEq]

/-- C6 (amended): every location the solver returns, with or without
advisory, has latitude in `[-90, 90]`; the longitude, however, is not
clamped and can leave `[-180, 180]` (see the counterexample). -/
theorem latitude_within_range (d : CalendarDate) (sr ss : ClockTime) (off : ℝ) (lat lon : ℝ)
    (h : solve_location d sr ss off = SolveOutcome.ok lat lon ∨
         solve_location d sr ss off = SolveOutcome.withAdvisory lat lon) :
    -90 ≤ lat ∧ lat ≤ 90 := by
  by_cases hd : ss.toSeconds - sr.toSeconds ≤ 0
  · rw [solve_location, if_pos hd] at h
    rcases h with h | h <;> exact absurd h (by simp)
  · rw [solve_location_of_pos d sr ss off (not_le.mp hd)] at h
    by_cases hc : |Real.tan (get_solar_declination_and_eot d).declination| < 0.001
    · rw [if_pos hc] at h
      rcases h with h | h
      · exact absurd h (by simp)
      · rw [SolveOutcome.withAdvisory.injEq] at h
        rw [← h.1]
        norm_num
    · rw [if_neg hc] at h
      rcases h with h | h
      · rw [SolveOutcome.ok.injEq] at h
        set a := Real.arctan
          (-Real.cos (radians (((((ss.toSeconds - sr.toSeconds : ℤ) : ℝ) / 3600) / 2) * 15)) /
            Real.tan (get_solar_declination_and_eot d).declination) with ha
        have h1 : a < Real.pi / 2 := Real.arctan_lt_pi_div_two _
        have h2 : -(Real.pi / 2) < a := Real.neg_pi_div_two_lt_arctan _
        have hcpos : (0 : ℝ) < 180 / Real.pi := by positivity
        have key : (Real.pi / 2) * (180 / Real.pi) = 90 := by
          field_simp
          ring
        have hu : a * (180 / Real.pi) < 90 := by
          calc a * (180 / Real.pi) < (Real.pi / 2) * (180 / Real.pi) :=
                mul_lt_mul_of_pos_right h1 hcpos
            _ = 90 := key
        have hl : -90 < a * (180 / Real.pi) := by
          have := mul_lt_mul_of_pos_right h2 hcpos
          have hneg : -(Real.pi / 2) * (180 / Real.pi) = -90 := by
            rw [neg_mul, key]
          rw [hneg] at this
          exact this
        rw [← h.1]
        simp only [degrees]
        constructor <;> linarith
      · exact absurd h (by simp)

/-- Witness for the amended C6 at the day-of-year-81 advisory outcome. -/
theorem latitude_within_range_witness :
    (solve_location ⟨2024, 81⟩ ⟨6, 30, 0⟩ ⟨18, 30, 0⟩ 8 = SolveOutcome.ok 0 114.3825 ∨
      solve_location ⟨2024, 81⟩ ⟨6, 30, 0⟩ ⟨18, 30, 0⟩ 8 =
        SolveOutcome.withAdvisory 0 114.3825) ∧
    (-90 ≤ (0 : ℝ) ∧ (0 : ℝ) ≤ 90) := by
  have hs : solve_location ⟨2024, 81⟩ ⟨6, 30, 0⟩ ⟨18, 30, 0⟩ 8 =
      SolveOutcome.withAdvisory 0 114.3825 := by
    rw [solve_location_day81 2024 ⟨6, 30, 0⟩ ⟨18, 30, 0⟩ 8 (by decide)]
    norm_num [ClockTime.toSeconds, SolveOutcome.withAdvisory.injEq]
  exact ⟨Or.inr hs,
    latitude_within_range ⟨2024, 81⟩ ⟨6, 30, 0⟩ ⟨18, 30, 0⟩ 8 0 114.3825 (Or.inr hs)⟩

/-- C8: holding date and offset fixed, if sunrise and sunset shift by the
same amount so that the solar noon moves `t` minutes later, the longitude
changes by exactly `-t/4` degrees, for any two inputs with positive day
length. -/
theorem longitude_shift_quarter_degree_per_minute (d : CalendarDate)
    (sr₁ ss₁ sr₂ ss₂ : ClockTime) (off t : ℝ)
    (h₁ : 0 < ss₁.toSeconds - sr₁.toSeconds)
    (h₂ : 0 < ss₂.toSeconds - sr₂.toSeconds)
    (_hshift : ss₂.toSeconds - ss₁.toSeconds = sr₂.toSeconds - sr₁.toSeconds)
    (hnoon : ((sr₂.toSeconds : ℝ) + ((ss₂.toSeconds - sr₂.toSeconds : ℤ) : ℝ) / 2) / 60 =
        ((sr₁.toSeconds : ℝ) + ((ss₁.toSeconds - sr₁.toSeconds : ℤ) : ℝ) / 2) / 60 + t) :
    (solve_location d sr₂ ss₂ off).longitudeOf =
      Option.map (fun l => l - t / 4) (solve_location d sr₁ ss₁ off).longitudeOf := by
  rw [longitudeOf_solve_location d sr₁ ss₁ off h₁,
    longitudeOf_solve_location d sr₂ ss₂ off h₂, Option.map_some']
  rw [Option.some.injEq]
  linarith

/-- Witness for C8: shifting sunrise and sunset from 06:00/18:00 to
06:04/18:04 moves solar noon 4 minutes later and the longitude by -1°. -/
theorem longitude_shift_quarter_degree_per_minute_witness :
    0 < ClockTime.toSeconds ⟨18, 0, 0⟩ - ClockTime.toSeconds ⟨6, 0, 0⟩ ∧
    0 < ClockTime.toSeconds ⟨18, 4, 0⟩ - ClockTime.toSeconds ⟨6, 4, 0⟩ ∧
    ClockTime.toSeconds ⟨18, 4, 0⟩ - ClockTime.toSeconds ⟨18, 0, 0⟩ =
      ClockTime.toSeconds ⟨6, 4, 0⟩ - ClockTime.toSeconds ⟨6, 0, 0⟩ ∧
    ((ClockTime.toSeconds ⟨6, 4, 0⟩ : ℝ)
        + ((ClockTime.toSeconds ⟨18, 4, 0⟩ - ClockTime.toSeconds ⟨6, 4, 0⟩ : ℤ) : ℝ) / 2) / 60 =
      ((ClockTime.toSeconds ⟨6, 0, 0⟩ : ℝ)
        + ((ClockTime.toSeconds ⟨18, 0, 0⟩ - ClockTime.toSeconds ⟨6, 0, 0⟩ : ℤ) : ℝ) / 2) / 60
        + 4 ∧
    (solve_location ⟨2024, 81⟩ ⟨6, 4, 0⟩ ⟨18, 4, 0⟩ 0).longitudeOf =
      Option.map (fun l => l - 4 / 4)
        (solve_location ⟨2024, 81⟩ ⟨6, 0, 0⟩ ⟨18, 0, 0⟩ 0).longitudeOf := by
  have hnoon : ((ClockTime.toSeconds ⟨6, 4, 0⟩ : ℝ)
      + ((ClockTime.toSeconds ⟨18, 4, 0⟩ - ClockTime.toSeconds ⟨6, 4, 0⟩ : ℤ) : ℝ) / 2) / 60 =
      ((ClockTime.toSeconds ⟨6, 0, 0⟩ : ℝ)
        + ((ClockTime.toSeconds ⟨18, 0, 0⟩ - ClockTime.toSeconds ⟨6, 0, 0⟩ : ℤ) : ℝ) / 2) / 60
        + 4 := by
    norm_num [ClockTime.toSeconds]
  exact ⟨by decide, by decide, by decide, hnoon,
    longitude_shift_quarter_degree_per_minute ⟨2024, 81⟩ ⟨6, 0, 0⟩ ⟨18, 0, 0⟩ ⟨6, 4, 0⟩
      ⟨18, 4, 0⟩ 0 4 (by decide) (by decide) (by decide) hnoon⟩

/-- C2: with positive day length and `|tan(declination)| ≥ 0.001`, the
solver returns the no-advisory outcome whose latitude is
`atan(-cos(omega) / tan(declination))` in degrees, where `omega` is
`radians(((dayLengthSeconds/3600)/2) * 15)`. -/
theorem normal_branch_latitude (d : CalendarDate) (sr ss : ClockTime) (off : ℝ)
    (h : 0 < ss.toSeconds - sr.toSeconds)
    (h2 : 0.001 ≤ |Real.tan (get_solar_declination_and_eot d).declination|) :
    ∃ lon, solve_location d sr ss off =
      SolveOutcome.ok
        (degrees (Real.arctan
          (-Real.cos (radians (((((ss.toSeconds - sr.toSeconds : ℤ) : ℝ) / 3600) / 2) * 15)) /
            Real.tan (get_solar_declination_and_eot d).declination)))
        lon := by
  rw [solve_location_of_pos d sr ss off h, if_neg (not_lt.mpr h2)]
  exact ⟨_, rfl⟩

/-- On day-of-year 100 the angle `B` is exactly `38π/365` radians. -/
theorem declination_day100 :
    (get_solar_declination_and_eot ⟨2024, 100⟩).declination =
      23.45 * Real.sin (38 * Real.pi / 365) * (Real.pi / 180) := by
  have harg : ((360 : ℝ) / 365) * (((100 : ℕ) : ℝ) - 81) * (Real.pi / 180) =
      38 * Real.pi / 365 := by
    push_cast
    ring
  simp only [get_solar_declination_and_eot, radians]
  rw [harg]

/-- On day-of-year 100 the declination is a positive angle below `π/2`
whose tangent is comfortably above the `0.001` threshold, so the solver
takes the normal latitude branch there. -/
theorem tan_declination_day100_ge :
    0.001 ≤ |Real.tan (get_solar_declination_and_eot ⟨2024, 100⟩).declination| := by
  rw [declination_day100]
  have pi_gt := Real.pi_gt_d6
  have pi_lt := Real.pi_lt_d6
  set x : ℝ := 38 * Real.pi / 365 with hxdef
  have hx1 : 0.327 < x := by rw [hxdef]; nlinarith
  have hx2 : x < 0.3271 := by rw [hxdef]; nlinarith
  have hx0 : 0 < x := by linarith
  have hcube : x ^ 3 < 0.0351 := by
    have h3 : x ^ 3 < 0.3271 ^ 3 := pow_lt_pow_left₀ hx2 hx0.le (by norm_num)
    have h4 : (0.3271 : ℝ) ^ 3 < 0.0351 := by norm_num
    linarith
  have hsin : x - x ^ 3 / 4 < Real.sin x := Real.sin_gt_sub_cube hx0 (by linarith)
  have hsin_lb : 0.318 < Real.sin x := by nlinarith
  have hsin_ub : Real.sin x ≤ 1 := Real.sin_le_one x
  set dl : ℝ := 23.45 * Real.sin x * (Real.pi / 180) with hdldef
  have hdl_lb : 0.13 < dl := by rw [hdldef]; nlinarith
  have hdl_ub : dl < 0.41 := by rw [hdldef]; nlinarith
  have hdl_lt : dl < Real.pi / 2 := by nlinarith
  have htan : dl < Real.tan dl := Real.lt_tan (by linarith) hdl_lt
  have : (0.001 : ℝ) ≤ Real.tan dl := by linarith
  calc (0.001 : ℝ) ≤ Real.tan dl := this
    _ ≤ |Real.tan dl| := le_abs_self _

/-- Witness for C2 at day-of-year 100, sunrise 06:00:00, sunset 18:00:00,
UTC offset 0. -/
theorem normal_branch_latitude_witness :
    0 < ClockTime.toSeconds ⟨18, 0, 0⟩ - ClockTime.toSeconds ⟨6, 0, 0⟩ ∧
    0.001 ≤ |Real.tan (get_solar_declination_and_eot ⟨2024, 100⟩).declination| ∧
    ∃ lon, solve_location ⟨2024, 100⟩ ⟨6, 0, 0⟩ ⟨18, 0, 0⟩ 0 =
      SolveOutcome.ok
        (degrees (Real.arctan
          (-Real.cos (radians
              (((((ClockTime.toSeconds ⟨18, 0, 0⟩ - ClockTime.toSeconds ⟨6, 0, 0⟩ : ℤ) : ℝ)
                / 3600) / 2) * 15)) /
            Real.tan (get_solar_declination_and_eot ⟨2024, 100⟩).declination)))
        lon :=
  ⟨by decide, tan_declination_day100_ge,
    normal_branch_latitude ⟨2024, 100⟩ ⟨6, 0, 0⟩ ⟨18, 0, 0⟩ 0 (by decide)
      tan_declination_day100_ge⟩

end SunriseSunset
